import Mathlib

/-!
Shallow embedding of the servo control core of `main.py` (servo_api).
Dict-backed registries are association lists, hardware I/O is an event
trace, and Python exceptions are explicit `Option PyErr` results.
-/

namespace ServoApi

abbrev ServoId := ℕ

/-- A `gpiozero.Servo` handle: the pulse-width bounds it was created with. -/
structure Device where
  min_pw : ℚ
  max_pw : ℚ
deriving DecidableEq, Repr

/-- One entry of the `servo_states` dict. -/
structure ServoState where
  gpio_pin : ℤ
  current_angle : Option ℤ
  is_active : Bool
  last_updated : Option ℤ
deriving DecidableEq, Repr

/-- The module-level configuration globals of `main.py`. -/
structure Config where
  detach_enabled : Bool
  hold_time : ℚ
  min_pulse_width : ℚ
  max_pulse_width : ℚ
  hold_mode : String
  smooth_enabled : Bool
  smooth_steps : ℕ
  smooth_delay : ℚ
deriving DecidableEq, Repr

/-- Hardware oracle: whether `Servo(pin, ...)` construction succeeds for a
servo id, and whether writing `.value` on its device raises. -/
structure HW where
  ctor_ok : ServoId → Bool
  write_ok : ServoId → Bool

/-- Observable actions on hardware / timers / tracked state. -/
inductive Event where
  | attach (sid : ServoId)
  | write (sid : ServoId) (value : ℚ)
  | detach (sid : ServoId)
  | armDetach (sid : ServoId)
  | stateUpdate (sid : ServoId) (angle : ℤ)
  | sleep (secs : ℚ)
deriving DecidableEq, Repr

/-- Python exceptions raised by the servo core. -/
inductive PyErr where
  | notFound (sid : ServoId)
  | notActive (sid : ServoId)
  | keyError
  | hwError
  | nameError
  | zeroDivision
deriving DecidableEq, Repr

/-- `ValueError`s are the errors `move_servo` maps to HTTP 400. -/
def PyErr.isValueError : PyErr → Bool
  | .notFound _ => true
  | .notActive _ => true
  | _ => false

/-- The two dicts `servos` and `servo_states`. -/
structure Registry where
  servos : List (ServoId × Device)
  states : List (ServoId × ServoState)
deriving DecidableEq, Repr

/-- Python dict read `d[k]` / `k in d`. -/
def lookupA {α : Type} (l : List (ServoId × α)) (k : ServoId) : Option α :=
  (l.find? (fun p => p.1 == k)).map (fun p => p.2)

/-- Python dict write `d[k] = v` (replace in place, else append). -/
def setA {α : Type} (l : List (ServoId × α)) (k : ServoId) (v : α) : List (ServoId × α) :=
  if (l.find? (fun p => p.1 == k)).isSome then
    l.map (fun p => if p.1 == k then (k, v) else p)
  else l ++ [(k, v)]

/-- Result of a stateful core operation: the events it emitted, the
registry as mutated so far, and `some e` when it raised `e`. -/
structure Outcome where
  events : List Event
  reg : Registry
  res : Option PyErr
deriving DecidableEq, Repr

/-- `attach_servo`: re-creates the `Servo` with the current config bounds;
its own exceptions are caught and swallowed. -/
def attach_servo (cfg : Config) (hw : HW) (reg : Registry) (sid : ServoId) :
    List Event × Registry :=
  match lookupA reg.servos sid with
  | none => ([], reg)
  | some _ =>
    if hw.ctor_ok sid then
      ([Event.attach sid],
       { reg with servos := setA reg.servos sid ⟨cfg.min_pulse_width, cfg.max_pulse_width⟩ })
    else ([], reg)

/-- `detach_servo`: detaches only when the id is present and detach is enabled. -/
def detach_servo (cfg : Config) (reg : Registry) (sid : ServoId) : List Event :=
  match lookupA reg.servos sid with
  | none => []
  | some _ => if cfg.detach_enabled then [Event.detach sid] else []

/-- `set_servo_angle` (direct move). -/
def set_servo_angle (cfg : Config) (hw : HW) (reg : Registry) (sid : ServoId)
    (angle : ℤ) (update_state : Bool) (now : ℤ) : Outcome :=
  match lookupA reg.servos sid with
  | none => ⟨[], reg, some (.notFound sid)⟩
  | some _ =>
    match lookupA reg.states sid with
    | none => ⟨[], reg, some .keyError⟩
    | some st =>
      if st.is_active = false then ⟨[], reg, some (.notActive sid)⟩
      else if cfg.hold_mode = "release" then ⟨[], reg, none⟩
      else
        let ar := attach_servo cfg hw reg sid
        let value : ℚ := ((angle : ℚ) - 90) / 90
        if hw.write_ok sid = false then ⟨ar.1, ar.2, some .hwError⟩
        else
          let st1 := if update_state then
              { st with current_angle := some angle, last_updated := some now } else st
          let reg2 := if update_state then
              { ar.2 with states := setA ar.2.states sid st1 } else ar.2
          let evW := [Event.write sid value]
            ++ (if update_state then [Event.stateUpdate sid angle] else [])
          let evPost :=
            if cfg.hold_mode = "auto" ∧ cfg.detach_enabled = true then [Event.armDetach sid]
            else if cfg.hold_mode = "release" then detach_servo cfg reg2 sid
            else []
          ⟨ar.1 ++ evW ++ [Event.sleep (1/2)] ++ evPost, reg2, none⟩

/-- Python 3 `round`: round half to even. -/
def pyRound (q : ℚ) : ℤ :=
  let f : ℤ := ⌊q⌋
  let r : ℚ := q - f
  if r < 1/2 then f
  else if 1/2 < r then f + 1
  else if f % 2 = 0 then f else f + 1

/-- Intermediate angle of loop iteration `step` in `set_servo_angle_smooth`:
`max(0, min(180, round(current + (step+1) * (target-current)/steps)))`. -/
def smoothStepAngle (current target : ℤ) (steps : ℕ) (step : ℕ) : ℤ :=
  let step_size : ℚ := ((target : ℚ) - current) / steps
  let inter : ℚ := (current : ℚ) + ((step : ℚ) + 1) * step_size
  max 0 (min 180 (pyRound inter))

/-- `set_servo_angle_smooth`. The state-updating paths execute
`datetime.now()` with `datetime` never imported in `main.py`, so they
raise `NameError` right after assigning `current_angle`. -/
def set_servo_angle_smooth (cfg : Config) (hw : HW) (reg : Registry) (sid : ServoId)
    (target : ℤ) (update_state : Bool) : Outcome :=
  match lookupA reg.servos sid with
  | none => ⟨[], reg, some (.notFound sid)⟩
  | some _ =>
    match lookupA reg.states sid with
    | none => ⟨[], reg, some .keyError⟩
    | some st =>
      if st.is_active = false then ⟨[], reg, some (.notActive sid)⟩
      else if cfg.hold_mode = "release" then ⟨[], reg, none⟩
      else
        let ar := attach_servo cfg hw reg sid
        let current : ℤ := st.current_angle.getD 90
        let diff : ℤ := target - current
        if |diff| ≤ 1 then
          let evW := [Event.write sid ((target : ℚ) / 90 - 1)]
          if update_state then
            let st1 := { st with current_angle := some target }
            ⟨ar.1 ++ evW ++ [Event.stateUpdate sid target],
             { ar.2 with states := setA ar.2.states sid st1 }, some .nameError⟩
          else
            ⟨ar.1 ++ evW ++ [Event.sleep (1/10)], ar.2, none⟩
        else if cfg.smooth_steps = 0 then ⟨ar.1, ar.2, some .zeroDivision⟩
        else
          let n := cfg.smooth_steps
          let angles := (List.range n).map (smoothStepAngle current target n)
          if update_state then
            let evLoop := (angles.dropLast.map (fun a =>
                [Event.write sid ((a : ℚ) / 90 - 1), Event.sleep cfg.smooth_delay])).flatten
              ++ (angles.getLast?.elim [] (fun a =>
                [Event.write sid ((a : ℚ) / 90 - 1), Event.stateUpdate sid target]))
            let st1 := { st with current_angle := some target }
            ⟨ar.1 ++ evLoop, { ar.2 with states := setA ar.2.states sid st1 }, some .nameError⟩
          else
            let evLoop := (angles.map (fun a =>
                [Event.write sid ((a : ℚ) / 90 - 1), Event.sleep cfg.smooth_delay])).flatten
            let evPost :=
              if cfg.hold_mode = "auto" ∧ cfg.detach_enabled = true then [Event.armDetach sid]
              else if cfg.hold_mode = "release" then detach_servo cfg ar.2 sid
              else []
            ⟨ar.1 ++ evLoop ++ evPost, ar.2, none⟩

/-- HTTP-level results of the FastAPI endpoints. `ok` carries the
`ServoResponse` fields `success`, `servo_id`, `angle`. -/
inductive ApiResult where
  | ok (success : Bool) (servo_id : Option ServoId) (angle : Option ℤ)
  | err404 (sid : ServoId)
  | err400 (e : PyErr)
  | err400HoldMode
  | err500 (e : PyErr)
  | err207 (moved : List ServoId) (errors : List (ServoId × PyErr))
deriving DecidableEq, Repr

/-- Endpoint `POST /servos/{servo_id}/move`. -/
def move_servo (cfg : Config) (hw : HW) (reg : Registry) (sid : ServoId)
    (angle : ℤ) (now : ℤ) : Registry × List Event × ApiResult :=
  match lookupA reg.servos sid with
  | none => (reg, [], .err404 sid)
  | some _ =>
    let o := if cfg.smooth_enabled then set_servo_angle_smooth cfg hw reg sid angle true
             else set_servo_angle cfg hw reg sid angle true now
    match o.res with
    | none => (o.reg, o.events, .ok true (some sid) (some angle))
    | some e => (o.reg, o.events, if e.isValueError then .err400 e else .err500 e)

/-- Endpoint `POST /servos/move-all`: iterates the `servos` dict, moves
only servos whose state is active, collects per-id exceptions. -/
def move_all_servos (cfg : Config) (hw : HW) (reg : Registry) (angle : ℤ) (now : ℤ) :
    Registry × List ServoId × List (ServoId × PyErr) × ApiResult :=
  let step := fun (acc : Registry × List ServoId × List (ServoId × PyErr)) (sid : ServoId) =>
    match lookupA acc.1.states sid with
    | none => (acc.1, acc.2.1, acc.2.2 ++ [(sid, PyErr.keyError)])
    | some st =>
      if st.is_active then
        let o := set_servo_angle cfg hw acc.1 sid angle true now
        match o.res with
        | none => (o.reg, acc.2.1 ++ [sid], acc.2.2)
        | some e => (o.reg, acc.2.1, acc.2.2 ++ [(sid, e)])
      else acc
  let r := (reg.servos.map (fun p => p.1)).foldl step (reg, [], [])
  (r.1, r.2.1, r.2.2,
   if r.2.2 ≠ [] then .err207 r.2.1 r.2.2 else .ok true none (some angle))

/-- One iteration of the `initialize_servos` loop for `(i, pin)`. -/
def init_one_servo (cfg : Config) (hw : HW) (reg : Registry) (ip : ℕ × ℤ) : Registry :=
  if hw.ctor_ok ip.1 then
    let reg1 : Registry :=
      { servos := setA reg.servos ip.1 ⟨cfg.min_pulse_width, cfg.max_pulse_width⟩,
        states := setA reg.states ip.1 ⟨ip.2, some 90, true, none⟩ }
    let o := set_servo_angle cfg hw reg1 ip.1 90 false 0
    match o.res with
    | none => o.reg
    | some _ => { o.reg with states := setA o.reg.states ip.1 ⟨ip.2, none, false, none⟩ }
  else
    { reg with states := setA reg.states ip.1 ⟨ip.2, none, false, none⟩ }

/-- Ids 1,2,... paired with the configured pins, as `enumerate(gpio_pins, 1)`. -/
def withIds (pins : List ℤ) : List (ℕ × ℤ) :=
  ((List.range pins.length).map (fun k => k + 1)).zip pins

/-- `initialize_servos`: clears both dicts, then initializes every pin,
recording per-channel failure without aborting the rest. -/
def initialize_servos (cfg : Config) (hw : HW) (pins : List ℤ) : Registry :=
  (withIds pins).foldl (init_one_servo cfg hw) ⟨[], []⟩

/-- The pydantic `Field` bounds on `ServoConfig` (checked at the
transport boundary before the endpoint body runs). -/
def validServoConfigFields (c : Config) : Prop :=
  1/10 ≤ c.hold_time ∧ c.hold_time ≤ 10 ∧
  1/10000 ≤ c.min_pulse_width ∧ c.min_pulse_width ≤ 1/500 ∧
  1/500 ≤ c.max_pulse_width ∧ c.max_pulse_width ≤ 3/1000 ∧
  3 ≤ c.smooth_steps ∧ c.smooth_steps ≤ 50 ∧
  1/100 ≤ c.smooth_delay ∧ c.smooth_delay ≤ 1/5

instance (c : Config) : Decidable (validServoConfigFields c) := by
  unfold validServoConfigFields; infer_instance

/-- Endpoint `POST /servos/config`: validates `hold_mode` before any
global assignment, then applies all fields and re-initializes. -/
def update_servo_config (cur : Config) (reg : Registry) (hw : HW) (pins : List ℤ)
    (newc : Config) : Config × Registry × ApiResult :=
  if ¬ (newc.hold_mode = "auto" ∨ newc.hold_mode = "hold" ∨ newc.hold_mode = "release") then
    (cur, reg, .err400HoldMode)
  else
    (newc, initialize_servos newc hw pins, .ok true none none)

/-- `(angle - 90) / 90`, the single angle-to-actuation-value mapping. -/
def mapAngleToValue (angle : ℤ) : ℚ := ((angle : ℚ) - 90) / 90

/-- The values carried by the `write` events of a trace. -/
def writesOf (evs : List Event) : List ℚ :=
  evs.filterMap (fun e => match e with | .write _ v => some v | _ => none)

/-- The written values converted back to angles via the inverse of the
affine map `a ↦ a / 90 - 1`. -/
def writeAngles (evs : List Event) : List ℚ :=
  (writesOf evs).map (fun v => (v + 1) * 90)

/-- Hold-policy actions appearing in a trace (deferred-detach arming and
immediate detaches). -/
def policyEvents (evs : List Event) : List Event :=
  evs.filter (fun e => match e with
    | .armDetach _ => true
    | .detach _ => true
    | _ => false)

/-- One `threading.Timer` created by `schedule_servo_detach`. -/
structure TimerRec where
  sid : ServoId
  armedAt : ℚ
  delay : ℚ
  cancelledAt : Option ℚ
deriving DecidableEq, Repr

/-- Scheduler state: the log of every timer ever created, plus the
`servo_timers` dict mapping each id to the index of its latest timer. -/
structure Sched where
  log : List TimerRec
  slot : List (ServoId × ℕ)
deriving DecidableEq, Repr

def Sched.empty : Sched := ⟨[], []⟩

/-- `timer.cancel()` at time `now` on the log entry at `idx`. -/
def cancelAt (log : List TimerRec) (idx : ℕ) (now : ℚ) : List TimerRec :=
  match log.get? idx with
  | none => log
  | some r =>
    log.set idx (if r.cancelledAt = none then { r with cancelledAt := some now } else r)

/-- `schedule_servo_detach`: returns unchanged when detach is disabled,
otherwise cancels the slot's existing timer and arms a fresh one. -/
def schedule_servo_detach (detach_enabled : Bool) (hold_time : ℚ) (s : Sched)
    (sid : ServoId) (now : ℚ) : Sched :=
  if detach_enabled = false then s
  else
    let log1 := match lookupA s.slot sid with
      | some idx => cancelAt s.log idx now
      | none => s.log
    ⟨log1 ++ [⟨sid, now, hold_time, none⟩], setA s.slot sid log1.length⟩

/-- A timer eventually fires unless it was cancelled strictly before its
expiry (`threading.Timer.cancel` is a no-op after firing). -/
def TimerRec.fires (r : TimerRec) : Bool :=
  match r.cancelledAt with
  | some c => decide (r.armedAt + r.delay ≤ c)
  | none => true

/-- The times at which detaches of `sid` eventually happen. -/
def detachTimes (s : Sched) (sid : ServoId) : List ℚ :=
  ((s.log.filter (fun r => r.sid == sid && r.fires)).map (fun r => r.armedAt + r.delay))

/-- A timer is live at `t` when armed, not yet expired, not yet cancelled. -/
def TimerRec.liveAt (r : TimerRec) (t : ℚ) : Bool :=
  decide (r.armedAt ≤ t) && decide (t < r.armedAt + r.delay) &&
    (match r.cancelledAt with | some c => decide (t < c) | none => true)

/-- Number of live timers for `sid` at instant `t`. -/
def liveCount (s : Sched) (sid : ServoId) (t : ℚ) : ℕ :=
  (s.log.filter (fun r => r.sid == sid && r.liveAt t)).length

/-- The configured pins of `main.py`. -/
def gpio_pins : List ℤ := [13, 6, 19, 26]

/-- The module-level default configuration constants of `main.py`. -/
def cfgDefault : Config :=
  { detach_enabled := true, hold_time := 1, min_pulse_width := 1/2000,
    max_pulse_width := 1/400, hold_mode := "auto", smooth_enabled := false,
    smooth_steps := 10, smooth_delay := 1/20 }

def cfgRelease : Config := { cfgDefault with hold_mode := "release" }

def cfgSmooth : Config := { cfgDefault with smooth_enabled := true }

/-- Fault-free hardware. -/
def hwOK : HW := ⟨fun _ => true, fun _ => true⟩

/-- Hardware where `Servo(pin, ...)` construction fails for servo 1. -/
def hwCtorFail1 : HW := ⟨fun sid => sid != 1, fun _ => true⟩

/-- Hardware where writing `.value` on servo 1 raises. -/
def hwWriteFail1 : HW := ⟨fun _ => true, fun sid => sid != 1⟩

/-- Hardware where writing `.value` on servo 2 raises. -/
def hwWriteFail2 : HW := ⟨fun _ => true, fun sid => sid != 2⟩

/-- Hardware where every `Servo(pin, ...)` construction raises, as
gpiozero does when created with `min_pulse_width >= max_pulse_width`. -/
def hwCtorFailAll : HW := ⟨fun _ => false, fun _ => true⟩

/-- Registry right after a fault-free startup. -/
def regDefault : Registry := initialize_servos cfgDefault hwOK gpio_pins

/-- Registry after switching the configuration to release mode. -/
def regRelease : Registry := initialize_servos cfgRelease hwOK gpio_pins

/-- Registry where servo 2's device exists but its initial centering
write failed, leaving it inactive: 3 active servos + 1 inactive. -/
def regThreeActiveOneInactive : Registry := initialize_servos cfgDefault hwWriteFail2 gpio_pins

/-- A two-servo registry with both states active (servo 2's device will
raise on write at move time). -/
def regTwoActive : Registry :=
  ⟨[(1, ⟨1/2000, 1/400⟩), (2, ⟨1/2000, 1/400⟩)],
   [(1, ⟨13, some 90, true, none⟩), (2, ⟨6, some 90, true, none⟩)]⟩

/-- One active servo currently at angle 0. -/
def regAtZero : Registry :=
  ⟨[(1, ⟨1/2000, 1/400⟩)], [(1, ⟨13, some 0, true, none⟩)]⟩

/-- One active servo currently at angle 90. -/
def regAtNinety : Registry :=
  ⟨[(1, ⟨1/2000, 1/400⟩)], [(1, ⟨13, some 90, true, none⟩)]⟩

/-- Registry after startup where servo 1's device construction failed. -/
def regCtorFail : Registry := initialize_servos cfgDefault hwCtorFail1 gpio_pins

/-- Registry after startup where servo 1's device was created but its
initial centering write raised, so it sits in `servos` marked inactive. -/
def regWriteFail : Registry := initialize_servos cfgDefault hwWriteFail1 gpio_pins

/-- Smoothed move of servo 1 from current angle 0 to target 180. -/
def smooth0to180 : Outcome := set_servo_angle_smooth cfgSmooth hwOK regAtZero 1 180 true

/-- Smoothed move of servo 1 whose target equals its current angle 90. -/
def smooth90to90 : Outcome := set_servo_angle_smooth cfgSmooth hwOK regAtNinety 1 90 true

/-- A configuration request with an unknown hold mode. -/
def cfgBogus : Config := { cfgDefault with hold_mode := "bogus" }

/-- A configuration request with `min_pulse_width = max_pulse_width = 0.002`,
each field inside its pydantic bounds. -/
def cfgEqualPW : Config :=
  { detach_enabled := true, hold_time := 1, min_pulse_width := 1/500,
    max_pulse_width := 1/500, hold_mode := "auto", smooth_enabled := false,
    smooth_steps := 10, smooth_delay := 1/20 }

/-- C1 counterexample: in release mode, a direct or smoothed move on an
existing, active, possibly attached servo produces an empty event trace
and in particular performs no detach, refuting the claimed "immediate
detach if not already detached". -/
theorem C1_release_move_counterexample :
    set_servo_angle cfgRelease hwOK regRelease 1 45 true 0 = ⟨[], regRelease, none⟩ ∧
    set_servo_angle_smooth cfgRelease hwOK regRelease 1 45 true = ⟨[], regRelease, none⟩ ∧
    Event.detach 1 ∉ (set_servo_angle cfgRelease hwOK regRelease 1 45 true 0).events ∧
    Event.detach 1 ∉ (set_servo_angle_smooth cfgRelease hwOK regRelease 1 45 true).events := by
  simp [set_servo_angle, set_servo_angle_smooth, cfgRelease, cfgDefault, hwOK, regRelease,
    initialize_servos, init_one_servo, withIds, gpio_pins, lookupA, setA, attach_servo,
    List.find?, List.range_succ]

/-- C2 counterexample: servo 1 was configured (its state record exists,
inactive after its device construction failed at init), yet a move on it
reports the NotFound kind (HTTP 404), not the Inactive kind. -/
theorem C2_init_failed_servo_reports_not_found :
    lookupA regCtorFail.states 1 = some ⟨13, none, false, none⟩ ∧
    lookupA regCtorFail.servos 1 = none ∧
    (move_servo cfgDefault hwCtorFail1 regCtorFail 1 90 0).2.2 = .err404 1 := by
  simp [move_servo, set_servo_angle, cfgDefault, hwCtorFail1, regCtorFail,
    initialize_servos, init_one_servo, withIds, gpio_pins, lookupA, setA, attach_servo,
    List.find?, List.range_succ]

/-- C3 counterexample: `move-all(90)` on a registry with 3 active servos
and 1 inactive servo (servo 2) reports 3 successes and an empty error
list — the inactive servo yields no per-id Inactive error. -/
theorem C3_inactive_servo_silently_skipped :
    lookupA regThreeActiveOneInactive.states 2 = some ⟨6, none, false, none⟩ ∧
    (move_all_servos cfgDefault hwWriteFail2 regThreeActiveOneInactive 90 0).2.1 = [1, 3, 4] ∧
    (move_all_servos cfgDefault hwWriteFail2 regThreeActiveOneInactive 90 0).2.2.1 = [] ∧
    (move_all_servos cfgDefault hwWriteFail2 regThreeActiveOneInactive 90 0).2.2.2
      = .ok true none (some 90) := by
  simp [move_all_servos, set_servo_angle, cfgDefault, hwWriteFail2, regThreeActiveOneInactive,
    initialize_servos, init_one_servo, withIds, gpio_pins, lookupA, setA, attach_servo,
    List.find?, List.range_succ]

/-- C3 (amended): `move-all(90)` on 3 active + 1 inactive servos yields
exactly 3 per-id successes and no error entry — inactive servos are
skipped silently; servos that raise during the move get a per-id error
entry, reported alongside the succeeded ids in a 207 partial-success
result rather than as a single pass/fail. -/
theorem C3_bulk_move_reporting :
    (move_all_servos cfgDefault hwWriteFail2 regThreeActiveOneInactive 90 0).2.1.length = 3 ∧
    (move_all_servos cfgDefault hwWriteFail2 regThreeActiveOneInactive 90 0).2.2.1.length = 0 ∧
    (move_all_servos cfgDefault hwWriteFail2 regTwoActive 45 0).2.1 = [1] ∧
    (move_all_servos cfgDefault hwWriteFail2 regTwoActive 45 0).2.2.1 = [(2, .hwError)] ∧
    (move_all_servos cfgDefault hwWriteFail2 regTwoActive 45 0).2.2.2
      = .err207 [1] [(2, .hwError)] := by
  simp [move_all_servos, set_servo_angle, cfgDefault, hwWriteFail2, regThreeActiveOneInactive,
    regTwoActive, initialize_servos, init_one_servo, withIds, gpio_pins, lookupA, setA,
    attach_servo, List.find?, List.range_succ]

/-- C4: a smoothed move of servo 1 from 0 to 180 with 10 steps performs
exactly 10 non-decreasing intermediate writes, first angle 18 > 0, last
180, and `current_angle` becomes 180 only at the final step — but the
final-step state update raises `NameError` (`datetime` is never imported
in `main.py`), so `last_updated` is never set and the move endpoint
answers HTTP 500. -/
theorem C4_smooth_move_name_error :
    (writesOf smooth0to180.events).length = 10 ∧
    List.Chain' (· ≤ ·) (writeAngles smooth0to180.events) ∧
    (writeAngles smooth0to180.events).head? = some 18 ∧ (0 : ℚ) < 18 ∧
    (writeAngles smooth0to180.events).getLast? = some 180 ∧
    lookupA smooth0to180.reg.states 1 = some ⟨13, some 180, true, none⟩ ∧
    smooth0to180.res = some PyErr.nameError ∧
    (move_servo cfgSmooth hwOK regAtZero 1 180 5).2.2 = .err500 PyErr.nameError := by
  simp [smooth0to180, set_servo_angle_smooth, cfgSmooth, cfgDefault, hwOK, regAtZero,
    lookupA, setA, attach_servo, writesOf, writeAngles, move_servo, PyErr.isValueError,
    smoothStepAngle, pyRound, List.find?, List.range_succ, List.chain'_cons]
  norm_num

/-- C8: with `|target - current| = 0 ≤ 1` the smoothed move degenerates
to a single direct write, but no hold-policy action follows: the state
update raises `NameError` right after the write (and even absent that,
the degenerate branch returns before the hold-mode block), so in auto
mode no deferred detach is ever armed and the endpoint answers 500. -/
theorem C8_degenerate_smooth_move_bug :
    smooth90to90.events = [.attach 1, .write 1 0, .stateUpdate 1 90] ∧
    (writesOf smooth90to90.events).length = 1 ∧
    policyEvents smooth90to90.events = [] ∧
    smooth90to90.res = some PyErr.nameError ∧
    (move_servo cfgSmooth hwOK regAtNinety 1 90 5).2.2 = .err500 PyErr.nameError := by
  simp [smooth90to90, set_servo_angle_smooth, cfgSmooth, cfgDefault, hwOK, regAtNinety,
    lookupA, setA, attach_servo, writesOf, policyEvents, move_servo, PyErr.isValueError,
    List.find?]

/-- C9 counterexample: a configuration with equal pulse-width bounds
(both 0.002) passes every pydantic field bound and is accepted — the
endpoint reports success and stores it as the process-wide config, no
numeric-range validation rejects it — so accepted configurations need
not satisfy `min < max`. Device re-creation is then attempted with
those bounds; when every construction raises (as gpiozero does for
`min >= max`), the servos merely end up inactive and absent from the
device map, still with no validation error. -/
theorem C9_equal_pulse_widths_accepted :
    validServoConfigFields cfgEqualPW ∧
    (update_servo_config cfgDefault regDefault hwCtorFailAll gpio_pins cfgEqualPW).1
      = cfgEqualPW ∧
    (update_servo_config cfgDefault regDefault hwCtorFailAll gpio_pins cfgEqualPW).2.2
      = .ok true none none ∧
    lookupA (update_servo_config cfgDefault regDefault hwCtorFailAll gpio_pins
      cfgEqualPW).2.1.servos 1 = none ∧
    lookupA (update_servo_config cfgDefault regDefault hwCtorFailAll gpio_pins
      cfgEqualPW).2.1.states 1 = some ⟨13, none, false, none⟩ ∧
    ¬ (cfgEqualPW.min_pulse_width < cfgEqualPW.max_pulse_width) := by
  refine ⟨by norm_num [validServoConfigFields, cfgEqualPW], ?_, ?_, ?_, ?_,
    by norm_num [cfgEqualPW]⟩ <;>
    simp [update_servo_config, cfgEqualPW, hwCtorFailAll, initialize_servos, init_one_servo,
      withIds, gpio_pins, lookupA, setA, List.find?, List.range_succ]

/-- C1 (amended): in release mode a move on an existing, active servo is
skipped entirely — no attach, no pulse written — and the function
returns immediately with an empty event trace and unchanged registry, so
no detach is performed either (the post-move release-mode detach branch
is unreachable behind the early return). -/
theorem C1_release_skips_move_without_detach (cfg : Config) (hw : HW) (reg : Registry)
    (sid : ServoId) (angle : ℤ) (u : Bool) (now : ℤ) (st : ServoState)
    (hmode : cfg.hold_mode = "release")
    (hdev : (lookupA reg.servos sid).isSome)
    (hst : lookupA reg.states sid = some st)
    (hact : st.is_active = true) :
    set_servo_angle cfg hw reg sid angle u now = ⟨[], reg, none⟩ ∧
    set_servo_angle_smooth cfg hw reg sid angle u = ⟨[], reg, none⟩ := by
  obtain ⟨d, hd⟩ := Option.isSome_iff_exists.mp hdev
  constructor
  · simp [set_servo_angle, hd, hst, hact, hmode]
  · simp [set_servo_angle_smooth, hd, hst, hact, hmode]

theorem C1_release_skips_move_without_detach_witness :
    set_servo_angle cfgRelease hwOK regRelease 2 7 true 0 = ⟨[], regRelease, none⟩ ∧
    set_servo_angle_smooth cfgRelease hwOK regRelease 2 7 true = ⟨[], regRelease, none⟩ :=
  C1_release_skips_move_without_detach cfgRelease hwOK regRelease 2 7 true 0
    ⟨6, some 90, true, none⟩ rfl (by decide) (by decide) rfl

/-- C2 (amended): a single-servo move reports the NotFound kind (404)
exactly when the id is absent from the device map — which covers both
never-configured ids and ids whose device construction failed at init —
and reports the distinct Inactive kind (400, a `ValueError`) when the
device exists but its state is marked inactive (e.g. its initial
centering write raised). -/
theorem C2_error_kinds (cfg : Config) (hw : HW) (reg : Registry) (sid : ServoId)
    (angle : ℤ) (now : ℤ) (st : ServoState) :
    ((move_servo cfg hw reg sid angle now).2.2 = .err404 sid ↔
      lookupA reg.servos sid = none) ∧
    ((lookupA reg.servos sid).isSome → lookupA reg.states sid = some st →
      st.is_active = false →
      (move_servo cfg hw reg sid angle now).2.2 = .err400 (.notActive sid)) := by
  constructor
  · constructor
    · intro h
      by_contra hne
      obtain ⟨d, hd⟩ := Option.ne_none_iff_exists'.mp hne
      rcases hres : (if cfg.smooth_enabled then set_servo_angle_smooth cfg hw reg sid angle true
          else set_servo_angle cfg hw reg sid angle true now).res with _ | e
      · simp [move_servo, hd, hres] at h
      · cases he : e.isValueError
        · simp [move_servo, hd, hres, he] at h
        · simp [move_servo, hd, hres, he] at h
    · intro h
      simp [move_servo, h]
  · intro hs hst hact
    obtain ⟨d, hd⟩ := Option.isSome_iff_exists.mp hs
    cases hsm : cfg.smooth_enabled
    · simp [move_servo, hd, hsm, set_servo_angle, hst, hact, PyErr.isValueError]
    · simp [move_servo, hd, hsm, set_servo_angle_smooth, hst, hact, PyErr.isValueError]

theorem C2_error_kinds_witness :
    (move_servo cfgDefault hwWriteFail1 regWriteFail 1 90 0).2.2
      = .err400 (.notActive 1) :=
  (C2_error_kinds cfgDefault hwWriteFail1 regWriteFail 1 90 0 ⟨13, none, false, none⟩).2
    (by decide) (by decide) rfl

/-- C5: the angle-to-value mapping equals `(angle - 90) / 90`, stays in
`[-1, 1]` on `[0, 180]`, is strictly monotone, and sends 0 to -1, 90 to
0 and 180 to 1; it is a total function with no error cases. -/
theorem C5_pulse_mapper (a b : ℤ) (h0 : 0 ≤ a) (h1 : a ≤ 180) (hab : a < b) :
    mapAngleToValue a = (((a : ℤ) : ℚ) - 90) / 90 ∧
    -1 ≤ mapAngleToValue a ∧ mapAngleToValue a ≤ 1 ∧
    mapAngleToValue a < mapAngleToValue b ∧
    mapAngleToValue 0 = -1 ∧ mapAngleToValue 90 = 0 ∧ mapAngleToValue 180 = 1 := by
  have ha : (0 : ℚ) ≤ (a : ℚ) := by exact_mod_cast h0
  have ha' : ((a : ℤ) : ℚ) ≤ 180 := by exact_mod_cast h1
  have hab' : ((a : ℤ) : ℚ) < b := by exact_mod_cast hab
  refine ⟨rfl, ?_, ?_, ?_, by norm_num [mapAngleToValue], by norm_num [mapAngleToValue],
    by norm_num [mapAngleToValue]⟩
  · rw [mapAngleToValue, le_div_iff₀ (by norm_num : (0 : ℚ) < 90)]
    linarith
  · rw [mapAngleToValue, div_le_iff₀ (by norm_num : (0 : ℚ) < 90)]
    linarith
  · rw [mapAngleToValue, mapAngleToValue,
      div_lt_div_iff₀ (by norm_num : (0 : ℚ) < 90) (by norm_num : (0 : ℚ) < 90)]
    linarith

theorem C5_pulse_mapper_witness :
    mapAngleToValue 10 = (((10 : ℤ) : ℚ) - 90) / 90 ∧
    -1 ≤ mapAngleToValue 10 ∧ mapAngleToValue 10 ≤ 1 ∧
    mapAngleToValue 10 < mapAngleToValue 20 ∧
    mapAngleToValue 0 = -1 ∧ mapAngleToValue 90 = 0 ∧ mapAngleToValue 180 = 1 :=
  C5_pulse_mapper 10 20 (by norm_num) (by norm_num) (by norm_num)

/-- C6: a configuration update whose hold mode is not one of auto, hold,
release is rejected with the validation error before any assignment, so
the process-wide configuration and the registry (hence every device's
pulse-width bounds) are returned exactly as they were. -/
theorem C6_invalid_hold_mode_rejected_unchanged (cur : Config) (reg : Registry) (hw : HW)
    (pins : List ℤ) (newc : Config)
    (h : ¬ (newc.hold_mode = "auto" ∨ newc.hold_mode = "hold" ∨
      newc.hold_mode = "release")) :
    update_servo_config cur reg hw pins newc = (cur, reg, .err400HoldMode) := by
  unfold update_servo_config
  rw [if_pos h]

theorem C6_invalid_hold_mode_rejected_unchanged_witness :
    update_servo_config cfgDefault regDefault hwOK gpio_pins cfgBogus
      = (cfgDefault, regDefault, .err400HoldMode) :=
  C6_invalid_hold_mode_rejected_unchanged cfgDefault regDefault hwOK gpio_pins cfgBogus
    (by decide)

/-- C9 (amended): every configuration the config-update operation
accepts — any of the three hold modes, all pydantic field bounds met —
satisfies `min_pulse_width ≤ max_pulse_width` (so `min > max` can never
be accepted), but equality is possible exactly at 0.002 s, and such an
update succeeds and stores the configuration verbatim. -/
theorem C9_pulse_width_order (cur : Config) (reg : Registry) (hw : HW) (pins : List ℤ)
    (c : Config) (hv : validServoConfigFields c)
    (hm : c.hold_mode = "auto" ∨ c.hold_mode = "hold" ∨ c.hold_mode = "release") :
    (update_servo_config cur reg hw pins c).1 = c ∧
    (update_servo_config cur reg hw pins c).2.2 = .ok true none none ∧
    c.min_pulse_width ≤ c.max_pulse_width ∧
    (c.min_pulse_width = c.max_pulse_width → c.min_pulse_width = 1/500) := by
  obtain ⟨h1, h2, h3, h4, h5, h6, h7, h8, h9, h10⟩ := hv
  unfold update_servo_config
  rw [if_neg (not_not_intro hm)]
  exact ⟨rfl, rfl, by linarith, fun he => by linarith⟩

theorem C9_pulse_width_order_witness :
    (update_servo_config cfgDefault regDefault hwOK gpio_pins cfgRelease).1 = cfgRelease ∧
    (update_servo_config cfgDefault regDefault hwOK gpio_pins cfgRelease).2.2
      = .ok true none none ∧
    cfgRelease.min_pulse_width ≤ cfgRelease.max_pulse_width ∧
    (cfgRelease.min_pulse_width = cfgRelease.max_pulse_width →
      cfgRelease.min_pulse_width = 1/500) :=
  C9_pulse_width_order cfgDefault regDefault hwOK gpio_pins cfgRelease
    (by norm_num [validServoConfigFields, cfgRelease, cfgDefault]) (Or.inr (Or.inr rfl))

/-- C10: in release mode a move request on an existing, active servo
still answers success with the echoed angle, while the registry is
returned untouched and the event trace is empty — no pulse is written
and `current_angle`/`last_updated` keep their previous values. -/
theorem C10_release_move_success_no_state_change (cfg : Config) (hw : HW) (reg : Registry)
    (sid : ServoId) (angle : ℤ) (now : ℤ) (st : ServoState)
    (hmode : cfg.hold_mode = "release")
    (hdev : (lookupA reg.servos sid).isSome)
    (hst : lookupA reg.states sid = some st)
    (hact : st.is_active = true) :
    move_servo cfg hw reg sid angle now = (reg, [], .ok true (some sid) (some angle)) := by
  obtain ⟨d, hd⟩ := Option.isSome_iff_exists.mp hdev
  cases hsm : cfg.smooth_enabled
  · simp [move_servo, hd, hsm, set_servo_angle, hst, hact, hmode]
  · simp [move_servo, hd, hsm, set_servo_angle_smooth, hst, hact, hmode]

/-- C7: arming the deferred-detach scheduler twice in succession for the
same id (the second arm before the first would fire) first cancels the
existing timer, so exactly one eventual detach remains, at the second
arm's time plus its delay, and at every instant at most one timer for
that id is live. -/
theorem C7_detach_timer_supersede (sid : ServoId) (t1 t2 delay t : ℚ)
    (h1 : t1 ≤ t2) (h2 : t2 < t1 + delay) :
    detachTimes (schedule_servo_detach true delay
      (schedule_servo_detach true delay Sched.empty sid t1) sid t2) sid = [t2 + delay] ∧
    liveCount (schedule_servo_detach true delay
      (schedule_servo_detach true delay Sched.empty sid t1) sid t2) sid t ≤ 1 := by
  have hle : t1 ≤ t2 := h1
  have hs : schedule_servo_detach true delay
      (schedule_servo_detach true delay Sched.empty sid t1) sid t2
      = ⟨[⟨sid, t1, delay, some t2⟩, ⟨sid, t2, delay, none⟩], [(sid, 1)]⟩ := by
    simp [schedule_servo_detach, Sched.empty, lookupA, setA, cancelAt, List.find?]
  rw [hs]
  constructor
  · simp [detachTimes, TimerRec.fires, List.filter, h2.not_le]
  · rcases le_or_lt t2 t with h | h
    · simp only [liveCount, TimerRec.liveAt, List.filter]
      have hx : ¬ (t < t2) := not_lt.mpr h
      simp [hx]
      cases hb : (decide (t2 ≤ t) && decide (t < t2 + delay)) <;> simp
    · simp only [liveCount, TimerRec.liveAt, List.filter]
      have hx : ¬ (t2 ≤ t) := not_le.mpr h
      simp [hx]
      cases hb : (decide (t1 ≤ t) && decide (t < t1 + delay) && decide (t < t2)) <;> simp

theorem C7_detach_timer_supersede_witness :
    detachTimes (schedule_servo_detach true 1
      (schedule_servo_detach true 1 Sched.empty 5 0) 5 (1/2)) 5 = [1/2 + 1] ∧
    liveCount (schedule_servo_detach true 1
      (schedule_servo_detach true 1 Sched.empty 5 0) 5 (1/2)) 5 7 ≤ 1 :=
  C7_detach_timer_supersede 5 0 (1/2) 1 7 (by norm_num) (by norm_num)

theorem C10_release_move_success_no_state_change_witness :
    move_servo cfgRelease hwOK regRelease 3 120 0
      = (regRelease, [], .ok true (some 3) (some 120)) :=
  C10_release_move_success_no_state_change cfgRelease hwOK regRelease 3 120 0
    ⟨19, some 90, true, none⟩ rfl (by decide) (by decide) rfl

end ServoApi
